import Mathlib

/-!
Verification of the two command-line scripts of this repository
(`generate_integrated_fast.py` and `generate_video_from_image.py`) via a
shallow embedding: the pure string processing is translated to Lean
functions, the process-wide model cache to explicit state passing, and the
effectful parts (pipeline calls, file system, network, subprocess) to
explicit effect traces threaded through the embedded control flow.
-/

/-! ## Python string primitives

The scripts use Python's `str.split`, substring containment (`in`),
`str.strip`, `str.startswith`, `str.replace` and `" ".join`.  Lean's
`String.trim`, `String.startsWith`, `String.replace` and
`String.intercalate` have the same semantics on the inputs involved; for
`str.split` with an explicit separator we define the character-level
scanner below (leftmost, non-overlapping matches), which is Python's
documented behaviour. -/

/-- One occurrence-position scan: `occCount sep l` counts the positions of
`l` at which the (non-empty) character sequence `sep` occurs, overlapping
occurrences included. -/
def occCount (sep : List Char) : List Char → Nat
  | [] => 0
  | c :: rest => (if sep.isPrefixOf (c :: rest) then 1 else 0) + occCount sep rest

/-- Character-level model of Python `str.split(sep)` for a non-empty
separator `c0 :: sep`: scan left to right, cutting at each leftmost
non-overlapping occurrence of the separator.  The `fuel` argument only
makes the recursion structural (each separator match skips
`sep.length + 1` characters, which plain structural recursion cannot
express); any `fuel ≥ l.length` computes the scan to completion. -/
def pySplitCharsF (c0 : Char) (sep : List Char) : Nat → List Char → List (List Char)
  | _, [] => [[]]
  | 0, l => [l]
  | fuel + 1, c :: rest =>
    if (c0 :: sep).isPrefixOf (c :: rest) then
      [] :: pySplitCharsF c0 sep fuel (List.drop sep.length rest)
    else
      match pySplitCharsF c0 sep fuel rest with
      | [] => [[c]]
      | p :: ps => (c :: p) :: ps

/-- `pySplitCharsF` with enough fuel to finish the scan. -/
def pySplitChars (c0 : Char) (sep : List Char) (l : List Char) : List (List Char) :=
  pySplitCharsF c0 sep l.length l

/-- Python `s.split(sep)` on strings (the scripts only call it with the
non-empty separators `"--- END OF REASONING ---"`, `"\n"` and `","`; the
empty-separator case, which Python rejects with `ValueError`, is never
reached and is mapped to `[s]`). -/
def pySplit (sep s : String) : List String :=
  match sep.data with
  | [] => [s]
  | c0 :: rest => (pySplitChars c0 rest s.data).map String.mk

/-- Python `needle in hay` substring containment (an empty needle is
contained in everything; a non-empty needle is contained iff it occurs at
some position). -/
def pyContains (needle hay : String) : Bool :=
  match needle.data with
  | [] => true
  | c :: cs => decide (0 < occCount (c :: cs) hay.data)

/-- The whitespace set of Python `str.strip()` (the ASCII part; the
scripts' inputs are ASCII log text). -/
def pyIsSpace (c : Char) : Bool :=
  c = ' ' || c = '\t' || c = '\n' || c = '\r' || c = '\x0b' || c = '\x0c'

/-- Python `s.strip()`: drop leading and trailing whitespace. -/
def pyStrip (s : String) : String :=
  String.mk ((((s.data.dropWhile pyIsSpace).reverse).dropWhile pyIsSpace).reverse)

/-- Python `s.startswith(pre)`. -/
def pyStartsWith (pre s : String) : Bool :=
  pre.data.isPrefixOf s.data

/-- Python `sep.join(parts)`. -/
def pyJoin (sep : String) (parts : List String) : String :=
  String.mk (List.intercalate sep.data (parts.map String.data))

/-- Python `s.replace(old, new)` for a non-empty `old` (the scripts only
replace the literal `"Generating image with prompt:"`, `" "` and `"/"`):
split at every occurrence of `old` and rejoin with `new`. -/
def pyReplace (old new s : String) : String :=
  pyJoin new (pySplit old s)

/-- Python `s[:n]` (slicing counts characters, as `List Char` does). -/
def pyTake (s : String) (n : Nat) : String :=
  String.mk (s.data.take n)

/-- Python `s[n:]`. -/
def pyDrop (s : String) (n : Nat) : String :=
  String.mk (s.data.drop n)

/-- Python `len(s)`. -/
def pyLen (s : String) : Nat :=
  s.data.length

/-! ## `generate_video_from_image.py`: the reasoning-file parser -/

/-- The literal marker `read_reasoning_file` splits on. -/
def reasoningMarker : String := "--- END OF REASONING ---"

/-- Result record of `read_reasoning_file`. -/
structure ReasoningData where
  reasoning : String
  original_prompt : String
deriving DecidableEq

/-- The cue test of `read_reasoning_file`'s line scan: Python
`"Generating image with prompt:" in line or line.strip().startswith("Cartoon")`. -/
def isCueLine (line : String) : Bool :=
  pyContains "Generating image with prompt:" line || pyStartsWith "Cartoon" (pyStrip line)

/-- The `for i, line in enumerate(lines)` loop of `read_reasoning_file`:
find the first cue line; from it, keep every non-empty stripped line,
join with single spaces, delete the cue phrase and strip.  Returns `""`
both when no cue line exists and when the loop body produces an empty
string — exactly the cases in which Python's `if not original_prompt`
fallback fires. -/
def scanCue : List String → String
  | [] => ""
  | line :: rest =>
    if isCueLine line then
      pyStrip (pyReplace "Generating image with prompt:" ""
        (pyJoin " " (((line :: rest).map pyStrip).filter (fun l => l ≠ ""))))
    else scanCue rest

/-- `original_prompt` extraction from the (stripped) remainder after the
marker: the cue-line scan, falling back to the whole remainder when the
scan produced nothing. -/
def cuePrompt (remaining : String) : String :=
  let op := scanCue (pySplit "\n" remaining)
  if op = "" then remaining else op

/-- Embedding of `read_reasoning_file` (the file's text is passed as a
string): split on the marker; with at least two parts, `reasoning` is the
stripped first part and `original_prompt` comes from the cue-line scan of
the stripped second part; otherwise split at the midpoint character
index. -/
def read_reasoning_file (content : String) : ReasoningData :=
  match pySplit reasoningMarker content with
  | p0 :: p1 :: _ =>
    { reasoning := pyStrip p0, original_prompt := cuePrompt (pyStrip p1) }
  | _ =>
    { reasoning := pyTake content (pyLen content / 2),
      original_prompt := pyDrop content (pyLen content / 2) }

example :
    read_reasoning_file "  thinking hard \n--- END OF REASONING ---\nGenerating image with prompt:\nCartoon cat\n" =
      { reasoning := "thinking hard", original_prompt := "Cartoon cat" } := by
  decide

example :
    read_reasoning_file "abcdef" =
      { reasoning := "abc", original_prompt := "def" } := by
  decide

/-! ## `generate_integrated_fast.py`: configs, generator construction -/

/-- The ways the embedded code can raise: a failed `dict` lookup
(`KeyError`) or the explicit `raise NotImplementedError(...)`. -/
inductive PyError where
  | keyError (key : String)
  | notImplementedError (msg : String)
deriving DecidableEq

/-- First-match lookup in an association list, the behaviour of a Python
`dict` subscript on the tables modelled here. -/
def dictLookup {κ α : Type} [DecidableEq κ] (table : List (κ × α)) (key : κ) : Option α :=
  match table with
  | [] => none
  | (k, v) :: rest => if k = key then some v else dictLookup rest key

/-- Modelled from the spec: the per-task config objects of the external
`wan.configs.WAN_CONFIGS` table are opaque here; the only field this
repository reads is the pipeline's configured frame rate
(`cfg.sample_fps`, §6 "encoded at the source pipeline's configured frame
rate"). -/
structure Config where
  sample_fps : Nat
deriving DecidableEq

/-- Modelled from the spec: `wan.configs.WAN_CONFIGS`, a fixed finite
mapping from task identifiers to configs, is not part of the two source
files.  The spec does not enumerate its keys; the two CLIs reference the
tasks `"vace-1.3B"` (script 1 default, the one supported family) and
`"t2v-14B"` (script 2 default), so the model contains at least those. -/
def wanConfigs : List (String × Config) :=
  [("t2v-14B", { sample_fps := 16 }),
   ("vace-1.3B", { sample_fps := 16 })]

/-- Modelled from the spec: `wan.configs.SIZE_CONFIGS`, the "fixed
enumerated set of supported resolutions" (§3), is not part of the two
source files.  The spec does not enumerate it; the two CLIs reference the
size strings `"832*480"` (script 1 default) and `"1280*720"` (script 2
default), so the model contains at least those entries. -/
def sizeConfigs : List (String × (Nat × Nat)) :=
  [("832*480", (832, 480)),
   ("1280*720", (1280, 720))]

/-- The state `WanFastGenerator.__init__` stores on `self` (the loaded
`wan.WanVace` pipeline object itself is external; its constructor
arguments `config/checkpoint_dir/device_id` are all recorded in these
fields). -/
structure WanFastGenerator where
  task : String
  ckpt_dir : Option String
  device_id : Int
  cfg : Config
deriving DecidableEq

/-- Embedding of `WanFastGenerator.__init__`: `self.cfg = WAN_CONFIGS[task]`
runs first (a `KeyError` for unknown tasks), then tasks containing
`"vace"` load the VACE pipeline and every other task raises
`NotImplementedError`. -/
def WanFastGenerator.init (task : String) (ckpt_dir : Option String)
    (device_id : Int) : Except PyError WanFastGenerator :=
  match dictLookup wanConfigs task with
  | none => .error (.keyError task)
  | some cfg =>
    if pyContains "vace" task then
      .ok { task := task, ckpt_dir := ckpt_dir, device_id := device_id, cfg := cfg }
    else
      .error (.notImplementedError ("Task " ++ task ++ " not yet supported in fast mode"))

/-! ## The generation façade `WanFastGenerator.generate`

The pipeline calls and the final `cache_video` are external effects; the
embedding records them in order in an effect trace, so "before any
pipeline prepare or inference work begins" is "with an empty trace".
The float-valued sampler parameters (`sample_shift`, `guide_scale`) are
passed through untouched, so they are carried as integers here. -/

/-- One external call made by `generate`, with the arguments the façade
passes to it. -/
inductive Effect where
  | prepareSource (srcVideo srcMask : List (Option Unit))
      (refImages : Option (List (List String))) (frameNum : Nat)
      (size : Nat × Nat) (deviceId : Int)
  | pipelineGenerate (prompt : String) (size : Nat × Nat) (frameNum : Nat)
      (shift : Int) (solver : String) (steps : Nat) (guideScale : Int)
      (seed : Int) (offload : Bool)
  | cacheVideo (saveFile : String) (fps : Nat)
deriving DecidableEq

/-- The `f"{task}_{size}_{formatted_prompt}_{formatted_time}.mp4"` default
output name, with the prompt sanitized as in the source
(`prompt.replace(" ", "_").replace("/", "_")[:50]`). -/
def defaultSaveFile (task size prompt now : String) : String :=
  task ++ "_" ++ size ++ "_" ++
    pyTake (pyReplace "/" "_" (pyReplace " " "_" prompt)) 50 ++ "_" ++ now ++ ".mp4"

/-- Embedding of `WanFastGenerator.generate`.  `drawn` is the value
`random.randint(0, sys.maxsize)` returns if the seed is normalized (the
caller of the theorem supplies its non-negativity, which is `randint`'s
contract); `now` is the `datetime.now().strftime(...)` timestamp string.
Returns the effect trace together with the result (`save_file`, or the
`KeyError` that `SIZE_CONFIGS[size]` raises for an unsupported size while
the arguments of `prepare_source` are being evaluated). -/
def WanFastGenerator.generate (g : WanFastGenerator) (prompt : String)
    (src_ref_images : Option String) (save_file : Option String)
    (size : String) (frame_num : Nat) (sample_steps : Nat)
    (sample_shift : Int) (sample_solver : String) (guide_scale : Int)
    (base_seed : Int) (offload_model : Bool)
    (drawn : Int) (now : String) : List Effect × Except PyError String :=
  let base_seed := if base_seed < 0 then drawn else base_seed
  let ref_images_list : Option (List (List String)) :=
    match src_ref_images with
    | none => none
    | some s => if s = "" then none else some [pySplit "," s]
  match dictLookup sizeConfigs size with
  | none => ([], .error (.keyError size))
  | some res =>
    let sf :=
      match save_file with
      | some f => f
      | none => defaultSaveFile g.task size prompt now
    ([.prepareSource [none] [none] ref_images_list frame_num res g.device_id,
      .pipelineGenerate prompt res frame_num sample_shift sample_solver
        sample_steps guide_scale base_seed offload_model,
      .cacheVideo sf g.cfg.sample_fps],
     .ok sf)

/-! ## The resource cache `get_generator` -/

/-- Embedding of `cache_key = f"{task}_{ckpt_dir}_{device_id}"`
(`ckpt_dir` is `None` rendered as `"None"` when absent, as in the
f-string). -/
def cacheKey (task : String) (ckpt_dir : Option String) (device_id : Int) : String :=
  task ++ "_" ++ (match ckpt_dir with | some d => d | none => "None") ++ "_" ++
    toString device_id

/-- The process-wide `_MODEL_CACHE` dictionary together with the
identity-allocation bookkeeping of the embedding: each constructed
`WanFastGenerator` gets a fresh numeric identity (Python object
identity), and `instances` records which constructor result each
identity denotes. -/
structure CacheState where
  cache : List (String × Nat)
  instances : List (Nat × WanFastGenerator)
  nextId : Nat
deriving DecidableEq

/-- The empty `_MODEL_CACHE` at interpreter start. -/
def emptyCache : CacheState :=
  { cache := [], instances := [], nextId := 0 }

/-- Embedding of `get_generator`: look the key up; on a miss run the
constructor (the returned `Bool` is `true` exactly when the construction
path executed).  A constructor exception propagates and leaves the cache
state unchanged; a constructed instance is stored under the key before
being returned. -/
def get_generator (task : String) (ckpt_dir : Option String) (device_id : Int)
    (st : CacheState) : CacheState × Bool × Except PyError Nat :=
  let key := cacheKey task ckpt_dir device_id
  match dictLookup st.cache key with
  | some inst => (st, false, .ok inst)
  | none =>
    match WanFastGenerator.init task ckpt_dir device_id with
    | .error e => (st, true, .error e)
    | .ok g =>
      ({ cache := (key, st.nextId) :: st.cache,
         instances := (st.nextId, g) :: st.instances,
         nextId := st.nextId + 1 },
       true, .ok st.nextId)

/-! ## `generate_video_from_image.py`: the external-process invoker and
the CLI main flow -/

/-- The argument list `generate_video` builds for the `generate.py`
subprocess, with the conditional `--output_dir` pair and the pass-through
arguments appended. -/
def buildCmd (pythonExe prompt task size ckpt_dir : String)
    (output_dir : Option String) (additional_args : List String) : List String :=
  [pythonExe, "generate.py", "--task", task, "--size", size,
   "--ckpt_dir", ckpt_dir, "--prompt", prompt] ++
  (match output_dir with | some d => ["--output_dir", d] | none => []) ++
  additional_args

/-- How the wrapping process ends: an explicit `sys.exit(code)`, or
falling off the end of the function (exit code 0 at interpreter exit). -/
inductive ProcExit where
  | exited (code : Int)
  | completed
deriving DecidableEq

/-- Embedding of the tail of `generate_video`: run the subprocess (its
exit code `returncode` is an input of the model) and `sys.exit` with that
code when it is non-zero, otherwise return normally. -/
def generate_video (returncode : Int) : ProcExit :=
  if returncode ≠ 0 then .exited returncode else .completed

/-- Python truthiness of `args.api_key or os.environ.get(...)` chains:
`None` and `""` are falsy. -/
def pyTruthy (s : Option String) : Bool :=
  match s with
  | none => false
  | some v => v ≠ ""

/-- Python `a or b` on optional strings. -/
def pyOrStr (a b : Option String) : Option String :=
  if pyTruthy a then a else b

/-- The parsed flags of `generate_video_from_image.py` that its `main`
reads (`--task`, `--size`, `--ckpt_dir`, `--output_dir` and the unknown
args are only printed or would only be forwarded to the subprocess). -/
structure CliArgs where
  image : String
  text : String
  api_key : Option String
  skip_claude : Bool
deriving DecidableEq

/-- The outside world as `main` observes it: which paths exist, the
`ANTHROPIC_API_KEY` environment variable, the text file's contents, and
what the Claude call would return (`.error` for any raised
transport/API exception). -/
structure CliEnv where
  fileExists : String → Bool
  envApiKey : Option String
  textFileContents : String
  claudeResult : Except String String

/-- What a run of `main` did: whether the network call to the LLM was
attempted, whether the video-generation subprocess was invoked, the final
video prompt (when the flow got that far), and how the process ended. -/
structure MainTrace where
  networkCalled : Bool
  videoInvoked : Bool
  videoPrompt : Option String
  result : ProcExit
deriving DecidableEq

/-- Embedding of `main` of `generate_video_from_image.py`: validate the
image and text paths (`sys.exit(1)` on a missing one), resolve the API
key (`sys.exit(1)` when it is falsy and `--skip-claude` was not given),
parse the reasoning file, then either skip Claude or call it — catching
any exception and falling back to the original prompt.  The
`generate_video(...)` call that once followed is commented out in the
source, so the flow never invokes the subprocess and always falls
through to the final banner. -/
def cliMain (args : CliArgs) (env : CliEnv) : MainTrace :=
  if ¬ env.fileExists args.image then
    { networkCalled := false, videoInvoked := false, videoPrompt := none,
      result := .exited 1 }
  else if ¬ env.fileExists args.text then
    { networkCalled := false, videoInvoked := false, videoPrompt := none,
      result := .exited 1 }
  else
    let api_key := pyOrStr args.api_key env.envApiKey
    if ¬ pyTruthy api_key ∧ ¬ args.skip_claude then
      { networkCalled := false, videoInvoked := false, videoPrompt := none,
        result := .exited 1 }
    else
      let data := read_reasoning_file env.textFileContents
      let original_prompt := data.original_prompt
      if args.skip_claude then
        { networkCalled := false, videoInvoked := false,
          videoPrompt := some original_prompt, result := .completed }
      else
        match env.claudeResult with
        | .ok p =>
          { networkCalled := true, videoInvoked := false,
            videoPrompt := some p, result := .completed }
        | .error _ =>
          { networkCalled := true, videoInvoked := false,
            videoPrompt := some original_prompt, result := .completed }

/-! ## Characterization of the split scan -/

/-- Unfolding `occCount` at a cons cell. -/
theorem occCount_cons (sep : List Char) (c : Char) (rest : List Char) :
    occCount sep (c :: rest) =
      (if sep.isPrefixOf (c :: rest) then 1 else 0) + occCount sep rest := rfl

/-- Unfolding one fueled step of the split scan. -/
theorem pySplitCharsF_cons (c0 : Char) (s' : List Char) (f : Nat)
    (c : Char) (rest : List Char) :
    pySplitCharsF c0 s' (f + 1) (c :: rest) =
      if (c0 :: s').isPrefixOf (c :: rest) then
        [] :: pySplitCharsF c0 s' f (List.drop s'.length rest)
      else
        match pySplitCharsF c0 s' f rest with
        | [] => [[c]]
        | p :: ps => (c :: p) :: ps := rfl

/-- A separator placed in front of a continuation is detected by
`isPrefixOf`. -/
theorem isPrefixOf_self_append (c0 : Char) (s' b : List Char) :
    (c0 :: s').isPrefixOf (c0 :: (s' ++ b)) = true := by
  rw [ List.isPrefixOf_iff_prefix]
  exact List.cons_prefix_cons.mpr ⟨rfl, List.prefix_append _ _⟩

/-- Occurrences in a suffix are occurrences in the whole list. -/
theorem occCount_append_le (sep a b : List Char) :
    occCount sep b ≤ occCount sep (a ++ b) := by
  induction a with
  | nil => simp
  | cons c a ih =>
    rw [List.cons_append, occCount_cons]
    omega

/-- A list that decomposes around the separator has at least one
occurrence. -/
theorem occCount_decomp_pos (c0 : Char) (s' a b : List Char) :
    0 < occCount (c0 :: s') (a ++ ((c0 :: s') ++ b)) := by
  have h1 : 0 < occCount (c0 :: s') ((c0 :: s') ++ b) := by
    rw [List.cons_append, occCount_cons, if_pos (isPrefixOf_self_append c0 s' b)]
    omega
  have h2 := occCount_append_le (c0 :: s') a ((c0 :: s') ++ b)
  omega

/-- With no occurrence of the separator, the scan returns the whole
input as a single part (any sufficient fuel). -/
theorem pySplitCharsF_no_occ (c0 : Char) (s' l : List Char) :
    ∀ fuel : Nat, l.length ≤ fuel → occCount (c0 :: s') l = 0 →
      pySplitCharsF c0 s' fuel l = [l] := by
  induction l with
  | nil =>
    intro fuel _ _
    cases fuel <;> rfl
  | cons c rest ih =>
    intro fuel hf hocc
    cases fuel with
    | zero => simp at hf
    | succ f =>
      rw [occCount_cons] at hocc
      cases hp : (c0 :: s').isPrefixOf (c :: rest) with
      | true =>
        rw [if_pos hp] at hocc
        omega
      | false =>
        rw [if_neg (by rw [hp]; exact Bool.false_ne_true)] at hocc
        have hlen : rest.length ≤ f := by
          rw [List.length_cons] at hf
          omega
        rw [pySplitCharsF_cons, if_neg (by rw [hp]; exact Bool.false_ne_true),
          ih f hlen (by omega)]

/-- With exactly one occurrence of the separator, the scan cuts the input
at that occurrence into exactly the surrounding two parts. -/
theorem pySplitCharsF_one_occ (c0 : Char) (s' : List Char) :
    ∀ (pre post : List Char) (fuel : Nat),
      (pre ++ ((c0 :: s') ++ post)).length ≤ fuel →
      occCount (c0 :: s') (pre ++ ((c0 :: s') ++ post)) = 1 →
      pySplitCharsF c0 s' fuel (pre ++ ((c0 :: s') ++ post)) = [pre, post] := by
  intro pre
  induction pre with
  | nil =>
    intro post fuel hf hocc
    rw [List.nil_append] at hf hocc ⊢
    rw [List.cons_append] at hf hocc ⊢
    cases fuel with
    | zero => simp at hf
    | succ f =>
      rw [occCount_cons, if_pos (isPrefixOf_self_append c0 s' post)] at hocc
      have hpost : occCount (c0 :: s') post = 0 := by
        have := occCount_append_le (c0 :: s') s' post
        omega
      have hlen : post.length ≤ f := by
        rw [List.length_cons, List.length_append] at hf
        omega
      rw [pySplitCharsF_cons, if_pos (isPrefixOf_self_append c0 s' post),
        List.drop_left, pySplitCharsF_no_occ c0 s' post f hlen hpost]
  | cons c pre' ih =>
    intro post fuel hf hocc
    rw [List.cons_append] at hf hocc ⊢
    cases fuel with
    | zero => simp at hf
    | succ f =>
      rw [occCount_cons] at hocc
      cases hp : (c0 :: s').isPrefixOf (c :: (pre' ++ ((c0 :: s') ++ post))) with
      | true =>
        rw [if_pos hp] at hocc
        have hpos := occCount_decomp_pos c0 s' pre' post
        omega
      | false =>
        rw [if_neg (by rw [hp]; exact Bool.false_ne_true)] at hocc
        have hlen : (pre' ++ ((c0 :: s') ++ post)).length ≤ f := by
          rw [List.length_cons] at hf
          omega
        rw [pySplitCharsF_cons, if_neg (by rw [hp]; exact Bool.false_ne_true),
          ih post f hlen (by omega)]

/-- `pySplit` on a text containing exactly one occurrence of a non-empty
separator yields the part strictly before it and the part strictly after
it. -/
theorem pySplit_pair (sep pre post : String)
    (hne : sep.data ≠ [])
    (hocc : occCount sep.data (pre ++ sep ++ post).data = 1) :
    pySplit sep (pre ++ sep ++ post) = [pre, post] := by
  cases hs : sep.data with
  | nil => exact absurd hs hne
  | cons c0 s' =>
    have hdata : (pre ++ sep ++ post).data = pre.data ++ ((c0 :: s') ++ post.data) := by
      rw [String.data_append, String.data_append, hs, List.append_assoc]
    rw [hs, hdata] at hocc
    simp only [pySplit, hs, pySplitChars, hdata]
    rw [pySplitCharsF_one_occ c0 s' pre.data post.data _ le_rfl hocc]
    rfl

/-- `pySplit` on a text with no occurrence of a non-empty separator
returns the whole text as the only part. -/
theorem pySplit_single (sep s : String)
    (hocc : occCount sep.data s.data = 0) :
    pySplit sep s = [s] := by
  cases hs : sep.data with
  | nil => simp [pySplit, hs]
  | cons c0 s' =>
    rw [hs] at hocc
    simp only [pySplit, hs, pySplitChars]
    rw [pySplitCharsF_no_occ c0 s' s.data _ le_rfl hocc]
    rfl

/-! ## Claim theorems -/

/-- C6: for a text containing the marker exactly once, `read_reasoning_file`
returns as `reasoning` the text strictly before the marker (stripped), and
as `original_prompt` the cue-line extraction from the stripped remainder,
falling back to that whole stripped remainder when the cue-line scan finds
nothing; for a text not containing the marker, it splits the text exactly
at the midpoint character index. -/
theorem read_reasoning_file_marker_and_midpoint (content pre post : String) :
    (content = pre ++ reasoningMarker ++ post →
      occCount reasoningMarker.data content.data = 1 →
      read_reasoning_file content =
        { reasoning := pyStrip pre, original_prompt := cuePrompt (pyStrip post) } ∧
      (scanCue (pySplit "\n" (pyStrip post)) = "" →
        (read_reasoning_file content).original_prompt = pyStrip post)) ∧
    (occCount reasoningMarker.data content.data = 0 →
      read_reasoning_file content =
        { reasoning := pyTake content (pyLen content / 2),
          original_prompt := pyDrop content (pyLen content / 2) }) := by
  constructor
  · intro h1 h2
    subst h1
    have hsplit := pySplit_pair reasoningMarker pre post (by decide) h2
    have hres : read_reasoning_file (pre ++ reasoningMarker ++ post) =
        { reasoning := pyStrip pre, original_prompt := cuePrompt (pyStrip post) } := by
      unfold read_reasoning_file
      rw [hsplit]
    refine ⟨hres, ?_⟩
    intro hcue
    rw [hres]
    show cuePrompt (pyStrip post) = pyStrip post
    unfold cuePrompt
    rw [hcue]
    rfl
  · intro h0
    have hsplit := pySplit_single reasoningMarker content h0
    unfold read_reasoning_file
    rw [hsplit]

/-- Witness for C6: a concrete marker document and a concrete marker-free
document, parsed via the theorem. -/
theorem read_reasoning_file_marker_and_midpoint_witness :
    read_reasoning_file
        "why\n--- END OF REASONING ---\nGenerating image with prompt: a cat" =
      { reasoning := "why", original_prompt := "a cat" } ∧
    read_reasoning_file "abcdef" =
      { reasoning := "abc", original_prompt := "def" } := by
  constructor
  · exact (((read_reasoning_file_marker_and_midpoint
      "why\n--- END OF REASONING ---\nGenerating image with prompt: a cat"
      "why\n" "\nGenerating image with prompt: a cat").1 (by decide)
        (by decide)).1).trans (by decide)
  · exact (((read_reasoning_file_marker_and_midpoint "abcdef" "" "").2
      (by decide))).trans (by decide)

/-- C1: when the invoked subprocess exits with a non-zero code, the
wrapping `generate_video` terminates the process with that same code; and
the enhancement CLI's `main` never actually invokes video generation (the
call is commented out in the source), so every run in which generation is
invoked — there are none — mirrors the subprocess's exit code. -/
theorem generate_video_exit_mirrors (rc : Int) (h : rc ≠ 0) :
    generate_video rc = .exited rc ∧
    ∀ (args : CliArgs) (env : CliEnv), (cliMain args env).videoInvoked = false := by
  constructor
  · unfold generate_video
    rw [if_pos h]
  · intro args env
    simp only [cliMain]
    repeat' first | rfl | split

/-- Witness for C1: exit code 7 propagates. -/
theorem generate_video_exit_mirrors_witness :
    generate_video 7 = ProcExit.exited 7 ∧
    (cliMain { image := "i", text := "t", api_key := none, skip_claude := true }
        { fileExists := fun _ => true, envApiKey := none,
          textFileContents := "x", claudeResult := .ok "p" }).videoInvoked = false := by
  have h := generate_video_exit_mirrors 7 (by decide)
  exact ⟨h.1, h.2 _ _⟩

/-- C7: when the files exist, an API key is available, enhancement is not
skipped, and the Claude call raises, `main` catches the exception, uses
the unmodified `original_prompt` as the video prompt, and runs to
completion (it does not abort). -/
theorem claude_failure_falls_back (args : CliArgs) (env : CliEnv) (e : String)
    (himg : env.fileExists args.image = true)
    (htxt : env.fileExists args.text = true)
    (hkey : pyTruthy (pyOrStr args.api_key env.envApiKey) = true)
    (hskip : args.skip_claude = false)
    (herr : env.claudeResult = .error e) :
    cliMain args env =
      { networkCalled := true, videoInvoked := false,
        videoPrompt := some (read_reasoning_file env.textFileContents).original_prompt,
        result := .completed } := by
  simp [cliMain, himg, htxt, hkey, hskip, herr]

/-- Witness for C7: a failing Claude call on concrete inputs degrades to
the parsed original prompt and the run completes. -/
theorem claude_failure_falls_back_witness :
    cliMain { image := "i.png", text := "t.txt", api_key := some "k", skip_claude := false }
        { fileExists := fun _ => true, envApiKey := none,
          textFileContents := "abcd", claudeResult := .error "boom" } =
      { networkCalled := true, videoInvoked := false,
        videoPrompt := some "cd", result := .completed } := by
  exact (claude_failure_falls_back
    { image := "i.png", text := "t.txt", api_key := some "k", skip_claude := false }
    { fileExists := fun _ => true, envApiKey := none,
      textFileContents := "abcd", claudeResult := .error "boom" }
    "boom" rfl rfl (by decide) rfl rfl).trans (by decide)

/-- C8: the enhancement CLI exits with code 1 — without attempting any
network call — when the image file is missing, when the text file is
missing, or when no API key is truthy (flag or environment) and
`--skip-claude` was not given. -/
theorem cli_validation_exits_one (args : CliArgs) (env : CliEnv) :
    (env.fileExists args.image = false →
      cliMain args env =
        { networkCalled := false, videoInvoked := false,
          videoPrompt := none, result := .exited 1 }) ∧
    (env.fileExists args.image = true → env.fileExists args.text = false →
      cliMain args env =
        { networkCalled := false, videoInvoked := false,
          videoPrompt := none, result := .exited 1 }) ∧
    (env.fileExists args.image = true → env.fileExists args.text = true →
      pyTruthy (pyOrStr args.api_key env.envApiKey) = false →
      args.skip_claude = false →
      cliMain args env =
        { networkCalled := false, videoInvoked := false,
          videoPrompt := none, result := .exited 1 }) := by
  refine ⟨fun h1 => ?_, fun h1 h2 => ?_, fun h1 h2 h3 h4 => ?_⟩ <;>
    simp [cliMain, h1, *]

/-- Witness for C8: all three validation failures on concrete inputs. -/
theorem cli_validation_exits_one_witness :
    (cliMain { image := "i", text := "t", api_key := some "k", skip_claude := false }
        { fileExists := fun _ => false, envApiKey := none,
          textFileContents := "x", claudeResult := .ok "p" } =
      { networkCalled := false, videoInvoked := false,
        videoPrompt := none, result := .exited 1 }) ∧
    (cliMain { image := "i", text := "t", api_key := some "k", skip_claude := false }
        { fileExists := fun p => p = "i", envApiKey := none,
          textFileContents := "x", claudeResult := .ok "p" } =
      { networkCalled := false, videoInvoked := false,
        videoPrompt := none, result := .exited 1 }) ∧
    (cliMain { image := "i", text := "t", api_key := none, skip_claude := false }
        { fileExists := fun _ => true, envApiKey := some "",
          textFileContents := "x", claudeResult := .ok "p" } =
      { networkCalled := false, videoInvoked := false,
        videoPrompt := none, result := .exited 1 }) := by
  refine ⟨?_, ?_, ?_⟩
  · exact (cli_validation_exits_one _ _).1 rfl
  · exact (cli_validation_exits_one _ _).2.1 (by decide) (by decide)
  · exact (cli_validation_exits_one _ _).2.2 rfl rfl (by decide) rfl

/-- The seeds a trace passes to the pipeline's inference call. -/
def seedsPassed : List Effect → List Int
  | [] => []
  | .pipelineGenerate _ _ _ _ _ _ _ seed _ :: rest => seed :: seedsPassed rest
  | _ :: rest => seedsPassed rest

/-- C5: the façade passes exactly one seed to the pipeline: the drawn
system-random value (which is non-negative, per `randint`'s contract,
here the hypothesis `hdrawn`) when the given seed is negative, and the
given seed unchanged when it is non-negative. -/
theorem generate_seed_normalization
    (g : WanFastGenerator) (prompt : String) (sri : Option String)
    (sf : Option String) (size : String) (fn ss : Nat) (shift gs : Int)
    (solver : String) (base_seed : Int) (off : Bool) (drawn : Int)
    (now : String) (res : Nat × Nat)
    (hdrawn : 0 ≤ drawn)
    (hsize : dictLookup sizeConfigs size = some res) :
    seedsPassed
        (g.generate prompt sri sf size fn ss shift solver gs base_seed off
          drawn now).1 =
      [if base_seed < 0 then drawn else base_seed] ∧
    (base_seed < 0 →
      seedsPassed
          (g.generate prompt sri sf size fn ss shift solver gs base_seed off
            drawn now).1 = [drawn] ∧ 0 ≤ drawn) ∧
    (0 ≤ base_seed →
      seedsPassed
          (g.generate prompt sri sf size fn ss shift solver gs base_seed off
            drawn now).1 = [base_seed]) := by
  have h : seedsPassed
      (g.generate prompt sri sf size fn ss shift solver gs base_seed off
        drawn now).1 = [if base_seed < 0 then drawn else base_seed] := by
    unfold WanFastGenerator.generate
    rw [hsize]
    rfl
  refine ⟨h, fun hneg => ⟨?_, hdrawn⟩, fun hpos => ?_⟩
  · rw [h, if_pos hneg]
  · rw [h, if_neg (by omega)]

/-- Witness for C5: a negative seed is replaced by the drawn value, a
non-negative one is passed through, on a concrete generator. -/
theorem generate_seed_normalization_witness :
    seedsPassed
        ((WanFastGenerator.mk "vace-1.3B" (some "ck") 0 ⟨16⟩).generate "p"
          none none "832*480" 41 25 16 "unipc" 5 (-1) true 42 "t").1 = [42] ∧
    seedsPassed
        ((WanFastGenerator.mk "vace-1.3B" (some "ck") 0 ⟨16⟩).generate "p"
          none none "832*480" 41 25 16 "unipc" 5 7 true 42 "t").1 = [7] := by
  constructor
  · exact ((generate_seed_normalization
      (WanFastGenerator.mk "vace-1.3B" (some "ck") 0 ⟨16⟩) "p" none none
      "832*480" 41 25 16 5 "unipc" (-1) true 42 "t" (832, 480)
      (by decide) (by decide)).2.1 (by decide)).1
  · exact (generate_seed_normalization
      (WanFastGenerator.mk "vace-1.3B" (some "ck") 0 ⟨16⟩) "p" none none
      "832*480" 41 25 16 5 "unipc" 7 true 42 "t" (832, 480)
      (by decide) (by decide)).2.2 (by decide)

/-- C9: a size string in the supported table resolves to its resolution
tuple, which is what the first pipeline call (`prepare_source`) receives;
a size string outside the table raises `KeyError` with an empty effect
trace, i.e. before any pipeline prepare or inference work. -/
theorem generate_size_lookup
    (g : WanFastGenerator) (prompt : String) (sri : Option String)
    (sf : Option String) (size : String) (fn ss : Nat) (shift gs : Int)
    (solver : String) (base_seed : Int) (off : Bool) (drawn : Int)
    (now : String) :
    (∀ res, dictLookup sizeConfigs size = some res →
      ∃ refs rest,
        (g.generate prompt sri sf size fn ss shift solver gs base_seed off
          drawn now).1 =
          .prepareSource [none] [none] refs fn res g.device_id :: rest) ∧
    (dictLookup sizeConfigs size = none →
      g.generate prompt sri sf size fn ss shift solver gs base_seed off
        drawn now = ([], .error (.keyError size))) := by
  constructor
  · intro res h
    unfold WanFastGenerator.generate
    rw [h]
    exact ⟨_, _, rfl⟩
  · intro h
    unfold WanFastGenerator.generate
    rw [h]

/-- Witness for C9: the supported size `"832*480"` reaches the pipeline
with the tuple `(832, 480)`; the unsupported size `"999*999"` fails with
`KeyError` and an empty trace. -/
theorem generate_size_lookup_witness :
    (∃ refs rest,
      ((WanFastGenerator.mk "vace-1.3B" (some "ck") 0 ⟨16⟩).generate "p"
        none none "832*480" 41 25 16 "unipc" 5 7 true 42 "t").1 =
        Effect.prepareSource [none] [none] refs 41 (832, 480) 0 :: rest) ∧
    ((WanFastGenerator.mk "vace-1.3B" (some "ck") 0 ⟨16⟩).generate "p"
      none none "999*999" 41 25 16 "unipc" 5 7 true 42 "t" =
        ([], .error (.keyError "999*999"))) := by
  constructor
  · exact (generate_size_lookup (WanFastGenerator.mk "vace-1.3B" (some "ck") 0 ⟨16⟩)
      "p" none none "832*480" 41 25 16 5 "unipc" 7 true 42 "t").1
      (832, 480) (by decide)
  · exact (generate_size_lookup (WanFastGenerator.mk "vace-1.3B" (some "ck") 0 ⟨16⟩)
      "p" none none "999*999" 41 25 16 5 "unipc" 7 true 42 "t").2 (by decide)

deriving instance DecidableEq for Except

/-- Does a construction result consist of the explicit
`NotImplementedError`? -/
def raisesNotImplemented : Except PyError WanFastGenerator → Bool
  | .error (.notImplementedError _) => true
  | _ => false

/-- Counterexample to C2 as stated: for the task string `"foo"` — outside
the vace family — construction fails with `KeyError` from the
`WAN_CONFIGS[task]` lookup on line 49, not with the "not implemented"
error of line 70. -/
theorem init_unknown_task_keyError :
    WanFastGenerator.init "foo" none 0 = .error (.keyError "foo") ∧
    raisesNotImplemented (WanFastGenerator.init "foo" none 0) = false := by
  decide

/-- C2 (amended): every task outside the vace family fails fast at
construction time; a task present in the config table raises the explicit
`NotImplementedError`, while a task absent from the table fails the
`WAN_CONFIGS[task]` lookup (`KeyError`) before the not-implemented check
is reached. -/
theorem init_fails_fast_non_vace (task : String) (ckpt : Option String)
    (dev : Int) (hvace : pyContains "vace" task = false) :
    (∀ cfg, dictLookup wanConfigs task = some cfg →
      WanFastGenerator.init task ckpt dev =
        .error (.notImplementedError
          ("Task " ++ task ++ " not yet supported in fast mode"))) ∧
    (dictLookup wanConfigs task = none →
      WanFastGenerator.init task ckpt dev = .error (.keyError task)) ∧
    ∃ e, WanFastGenerator.init task ckpt dev = .error e := by
  have h1 : ∀ cfg, dictLookup wanConfigs task = some cfg →
      WanFastGenerator.init task ckpt dev =
        .error (.notImplementedError
          ("Task " ++ task ++ " not yet supported in fast mode")) := by
    intro cfg h
    simp only [WanFastGenerator.init, h]
    rw [if_neg (by rw [hvace]; exact Bool.false_ne_true)]
  have h2 : dictLookup wanConfigs task = none →
      WanFastGenerator.init task ckpt dev = .error (.keyError task) := by
    intro h
    simp only [WanFastGenerator.init, h]
  refine ⟨h1, h2, ?_⟩
  cases h : dictLookup wanConfigs task with
  | none => exact ⟨_, h2 h⟩
  | some cfg => exact ⟨_, h1 cfg h⟩

/-- Witness for C2 (amended): the known non-vace task `"t2v-14B"` raises
the explicit `NotImplementedError` at construction. -/
theorem init_fails_fast_non_vace_witness :
    WanFastGenerator.init "t2v-14B" none 0 =
      .error (.notImplementedError
        ("Task " ++ "t2v-14B" ++ " not yet supported in fast mode")) :=
  (init_fails_fast_non_vace "t2v-14B" none 0 (by decide)).1
    { sample_fps := 16 } (by decide)

/-- C3: a second `get_generator` call with the same (task, checkpoint dir,
device id) returns the very instance the first call returned, without
running the construction path; and when the key was not cached before the
first call, the first call is the one construction across the two. -/
theorem get_generator_idempotent (task : String) (ckpt : Option String)
    (dev : Int) (st st1 : CacheState) (b1 : Bool) (i : Nat)
    (h1 : get_generator task ckpt dev st = (st1, b1, .ok i)) :
    get_generator task ckpt dev st1 = (st1, false, .ok i) ∧
    (dictLookup st.cache (cacheKey task ckpt dev) = none → b1 = true) := by
  simp only [get_generator] at h1
  cases hl : dictLookup st.cache (cacheKey task ckpt dev) with
  | some inst =>
    rw [hl] at h1
    injection h1 with hst hrest
    injection hrest with hb hi
    injection hi with hii
    subst hst
    subst hii
    exact ⟨by simp [get_generator, hl], fun h => by cases h⟩
  | none =>
    rw [hl] at h1
    cases hinit : WanFastGenerator.init task ckpt dev with
    | error e =>
      rw [hinit] at h1
      simp at h1
    | ok g =>
      rw [hinit] at h1
      injection h1 with hst hrest
      injection hrest with hb hi
      injection hi with hii
      subst hst
      subst hii
      exact ⟨by simp [get_generator, dictLookup, hinit], fun _ => hb.symm⟩

/-- Witness for C3: on the empty cache, the first acquire for
`("vace-1.3B", "ck", 0)` constructs instance `0`; the second acquire for
the same triple returns instance `0` without construction. -/
theorem get_generator_idempotent_witness :
    get_generator "vace-1.3B" (some "ck") 0 emptyCache =
      ({ cache := [("vace-1.3B_ck_0", 0)],
         instances := [(0, { task := "vace-1.3B", ckpt_dir := some "ck",
                             device_id := 0, cfg := { sample_fps := 16 } })],
         nextId := 1 }, true, .ok 0) ∧
    get_generator "vace-1.3B" (some "ck") 0
        { cache := [("vace-1.3B_ck_0", 0)],
          instances := [(0, { task := "vace-1.3B", ckpt_dir := some "ck",
                              device_id := 0, cfg := { sample_fps := 16 } })],
          nextId := 1 } =
      ({ cache := [("vace-1.3B_ck_0", 0)],
         instances := [(0, { task := "vace-1.3B", ckpt_dir := some "ck",
                             device_id := 0, cfg := { sample_fps := 16 } })],
         nextId := 1 }, false, .ok 0) := by
  constructor
  · decide
  · exact (get_generator_idempotent "vace-1.3B" (some "ck") 0 emptyCache _ true 0
      (by decide)).1

/-- C4: when the key is not cached and construction raises, the exception
propagates out of `get_generator` and the cache state is left exactly as
it was (no partial entry); a subsequent acquire for the same key runs the
construction path again (the `true` flag) and raises again. -/
theorem get_generator_error_no_cache (task : String) (ckpt : Option String)
    (dev : Int) (st : CacheState) (e : PyError)
    (hmiss : dictLookup st.cache (cacheKey task ckpt dev) = none)
    (herr : WanFastGenerator.init task ckpt dev = .error e) :
    get_generator task ckpt dev st = (st, true, .error e) ∧
    get_generator task ckpt dev (get_generator task ckpt dev st).1 =
      (st, true, .error e) := by
  have h : get_generator task ckpt dev st = (st, true, .error e) := by
    simp only [get_generator, hmiss, herr]
  refine ⟨h, ?_⟩
  rw [h]
  exact h

/-- Witness for C4: the non-vace task `"t2v-14B"` on the empty cache —
construction raises, the cache stays empty, the retry raises again. -/
theorem get_generator_error_no_cache_witness :
    get_generator "t2v-14B" none 0 emptyCache =
      (emptyCache, true,
        .error (.notImplementedError
          ("Task " ++ "t2v-14B" ++ " not yet supported in fast mode"))) ∧
    get_generator "t2v-14B" none 0 (get_generator "t2v-14B" none 0 emptyCache).1 =
      (emptyCache, true,
        .error (.notImplementedError
          ("Task " ++ "t2v-14B" ++ " not yet supported in fast mode"))) :=
  get_generator_error_no_cache "t2v-14B" none 0 emptyCache _ (by decide) (by decide)

/-- C10: the `"_"`-joined cache key is not injective — the two distinct
triples `("vace-1.3B_a", "b", 0)` and `("vace-1.3B", "a_b", 0)` share the
key `"vace-1.3B_a_b_0"` — and after the second triple populates the
cache, an acquire with the first triple returns (without constructing
anything, flag `false`) instance `0`, which `instances` records as having
been constructed for the other triple's task `"vace-1.3B"`, not for the
requested task `"vace-1.3B_a"`. -/
theorem cache_key_not_injective :
    cacheKey "vace-1.3B_a" (some "b") 0 = cacheKey "vace-1.3B" (some "a_b") 0 ∧
    ("vace-1.3B_a", some "b", (0 : Int)) ≠
      ("vace-1.3B", (some "a_b" : Option String), (0 : Int)) ∧
    get_generator "vace-1.3B_a" (some "b") 0
        (get_generator "vace-1.3B" (some "a_b") 0 emptyCache).1 =
      ((get_generator "vace-1.3B" (some "a_b") 0 emptyCache).1, false, .ok 0) ∧
    dictLookup (get_generator "vace-1.3B" (some "a_b") 0 emptyCache).1.instances 0 =
      some { task := "vace-1.3B", ckpt_dir := some "a_b",
             device_id := 0, cfg := { sample_fps := 16 } } ∧
    "vace-1.3B_a" ≠ "vace-1.3B" := by
  decide

/-- Witness for C10: the colliding key value itself. -/
theorem cache_key_not_injective_witness :
    cacheKey "vace-1.3B_a" (some "b") 0 = cacheKey "vace-1.3B" (some "a_b") 0 :=
  cache_key_not_injective.1
